import Mathlib

/-!
Shallow embedding of the go_bank repository: a minimal banking-account REST
API (Go, net/http + database/sql + golang-jwt/v5 + bcrypt).

The Postgres table is modelled as a list of rows in insertion order plus the
next serial id.  Each Go function over the database is translated into a pure
Lean function over this state; database/sql details that decide the claims are
modelled faithfully:
  - Rows.Scan fails when the number of destination arguments differs from the
    number of columns of the result set (or a column type does not match);
  - a SQL statement whose text is entirely a line comment has no parameters,
    so database/sql rejects the call when one argument is supplied
    (argument-count check against NumInput of the prepared statement);
  - db.Query connectivity errors are out of scope (the connection is assumed
    healthy), matching the spec treating the relational engine as external.

Randomness (rand.Intn for the bank number) and time (time.Now) are passed as
explicit parameters.  JWT tokens are modelled as an inductive: either a
malformed string or a signed payload carrying its claim set and the key that
produced the HMAC signature; verification compares that key with the
configured secret, which is exactly what HMAC verification decides.
-/

/-- Value of one SQL column as seen by database/sql Scan: integers (serial,
int), varchar, and timestamp are the only column types of the account table. -/
inductive Value where
  | vInt (n : Int)
  | vStr (s : String)
  | vTime (t : Int)
deriving DecidableEq

/-- Account record, from types.go.  CreatedAt is a unix timestamp. -/
structure Account where
  ID : Int
  FirstName : String
  LastName : String
  Email : String
  Password : String
  BankNumber : Int
  Balance : Int
  CreatedAt : Int
deriving DecidableEq

/-- State of the account table: the serial counter and the stored rows in
insertion order. -/
structure Store where
  nextId : Int
  table : List Account
deriving DecidableEq

/-- NewAccount from types.go: zero id (assigned by storage), zero balance,
random bank number and current time passed in as parameters. -/
def NewAccount (FirstName LastName Email Password : String)
    (bankNumber : Int) (now : Int) : Account :=
  { ID := 0, FirstName := FirstName, LastName := LastName, Email := Email,
    Password := Password, BankNumber := bankNumber, Balance := 0,
    CreatedAt := now }

/-- Row produced by SELECT * in the column order of CREATE TABLE account:
created_at, id, first_name, last_name, email, password, account_number,
balance (8 columns). -/
def selectStarRow (a : Account) : List Value :=
  [.vTime a.CreatedAt, .vInt a.ID, .vStr a.FirstName, .vStr a.LastName,
   .vStr a.Email, .vStr a.Password, .vInt a.BankNumber, .vInt a.Balance]

/-- Row produced by the RETURNING clause of CreateAccount: created_at, id,
first_name, last_name, email, account_number, balance (7 columns, password
omitted). -/
def returningRow (a : Account) : List Value :=
  [.vTime a.CreatedAt, .vInt a.ID, .vStr a.FirstName, .vStr a.LastName,
   .vStr a.Email, .vInt a.BankNumber, .vInt a.Balance]

/-- Scan of rowToAccount (storage.go): eight destination arguments
CreatedAt, ID, FirstName, LastName, Email, Password, BankNumber, Balance.
Succeeds only on a row with exactly these eight column types in this order;
any other shape is a Scan error (argument-count or type mismatch). -/
def scanRowToAccount : List Value → Except String Account
  | [.vTime t, .vInt i, .vStr fn, .vStr ln, .vStr em, .vStr pw, .vInt bn,
     .vInt bal] =>
      .ok { ID := i, FirstName := fn, LastName := ln, Email := em,
            Password := pw, BankNumber := bn, Balance := bal, CreatedAt := t }
  | _ => .error "sql: Scan destination arguments do not match row columns"

/-- Scan of the loop body of rowsToAccounts (storage.go): only six
destination arguments CreatedAt, ID, FirstName, LastName, BankNumber,
Balance (Email and Password are not scanned). -/
def scanRowsToAccounts : List Value → Except String Account
  | [.vTime t, .vInt i, .vStr fn, .vStr ln, .vInt bn, .vInt bal] =>
      .ok { ID := i, FirstName := fn, LastName := ln, Email := "",
            Password := "", BankNumber := bn, Balance := bal, CreatedAt := t }
  | _ => .error "sql: expected 8 destination arguments in Scan, not 6"

/-- rowToAccount from storage.go: rows.Next() ignored, then a single Scan
with eight destinations; with no row available Scan itself errors. -/
def rowToAccount : List (List Value) → Except String Account
  | [] => .error "sql: Scan called without calling Next"
  | r :: _ => scanRowToAccount r

/-- rowsToAccounts from storage.go: scan every row with the six-destination
Scan, aborting with the first error, collecting into a list. -/
def rowsToAccounts : List (List Value) → Except String (List Account)
  | [] => .ok []
  | r :: rest =>
    match scanRowsToAccounts r with
    | .error e => .error e
    | .ok a =>
      match rowsToAccounts rest with
      | .error e => .error e
      | .ok rest2 => .ok (a :: rest2)

/-- CreateAccount from storage.go: INSERT with a RETURNING clause of seven
columns; the insert fails (and stores nothing) on a uniqueness violation of
email or account_number, otherwise the row is stored with the next serial id
and rowToAccount is applied to the single returned row. -/
def CreateAccount (st : Store) (a : Account) : Store × Except String Account :=
  if st.table.any (fun b => b.Email == a.Email || b.BankNumber == a.BankNumber)
  then
    (st, .error "pq: duplicate key value violates unique constraint")
  else
    let stored := { a with ID := st.nextId }
    ({ nextId := st.nextId + 1, table := st.table ++ [stored] },
     rowToAccount [returningRow stored])

/-- SignIn from storage.go: SELECT * filtered by email, then rowToAccount on
the result set (all eight columns present). -/
def SignIn (st : Store) (email : String) (_password : String) :
    Except String Account :=
  rowToAccount ((st.table.filter (fun a => a.Email == email)).map selectStarRow)

/-- GetAccounts from storage.go: unfiltered SELECT *, then rowsToAccounts. -/
def GetAccounts (st : Store) : Except String (List Account) :=
  rowsToAccounts (st.table.map selectStarRow)

/-- GetAccountById from storage.go: SELECT * filtered by id, then
rowToAccount. -/
def GetAccountById (st : Store) (id : Int) : Except String Account :=
  rowToAccount ((st.table.filter (fun a => a.ID == id)).map selectStarRow)

/-- UpdateAccount from storage.go: the body is literally return nil. -/
def UpdateAccount (st : Store) (_a : Account) : Store × Except String Unit :=
  (st, .ok ())

/-- Exact text of the DeleteAccount query string in storage.go (a raw Go
string on a single line). -/
def deleteAccountQuery : String := "--sql DELETE FROM account WHERE id=$1;"

/-- Strip SQL line comments: from each occurrence of two consecutive dashes
up to the next newline, characters are dropped. -/
def stripLineComments : List Char → Bool → List Char
  | [], _ => []
  | '\n' :: rest, _ => '\n' :: stripLineComments rest false
  | '-' :: '-' :: rest, false => stripLineComments rest true
  | c :: rest, false => c :: stripLineComments rest false
  | _ :: rest, true => stripLineComments rest true

/-- A SQL statement is effectively empty when, after stripping line comments,
only whitespace remains; such a statement has no parameters. -/
def isEffectivelyEmpty (q : String) : Bool :=
  (stripLineComments q.toList false).all (fun c => c.isWhitespace)

/-- DeleteAccount from storage.go: db.Query(deleteAccountQuery, id).  The
query text opens with two dashes and has no newline, so the whole statement is
a SQL line comment: the prepared statement has zero parameters, and
database/sql rejects the call (one argument supplied against NumInput zero)
before anything executes.  Were the statement not comment-only, the DELETE
would remove the matching rows. -/
def DeleteAccount (st : Store) (id : Int) : Store × Except String Unit :=
  if isEffectivelyEmpty deleteAccountQuery then
    (st, .error "sql: expected 0 arguments, got 1")
  else
    ({ st with table := st.table.filter (fun a => !(a.ID == id)) }, .ok ())

example : isEffectivelyEmpty deleteAccountQuery = true := by decide
example :
    rowToAccount [returningRow (NewAccount "a" "b" "e" "p" 3 0)] =
      .error "sql: Scan destination arguments do not match row columns" := rfl
example :
    rowToAccount [selectStarRow (NewAccount "a" "b" "e" "p" 3 0)] =
      .ok (NewAccount "a" "b" "e" "p" 3 0) := rfl

/-- Value of one claim of a JWT payload, as decoded from JSON (numbers,
strings, booleans, null). -/
inductive ClaimVal where
  | cNum (x : Int)
  | cStr (s : String)
  | cBool (b : Bool)
  | cNull
deriving DecidableEq

/-- Token string as transported in the x-jwt-token header: either not a
well-formed compact JWT (the empty string of an absent header included), or a
signed token carrying its claim set and the HMAC key that produced its
signature. -/
inductive TokenString where
  | malformed (raw : String)
  | signed (claims : List (String × ClaimVal)) (sigSecret : String)
deriving DecidableEq

/-- Process environment: the JWT_SECRET variable; os.Getenv yields the empty
string when the variable is absent. -/
structure Env where
  jwtSecret : String
deriving DecidableEq

/-- CreateJWTToken from storage.go: claims id (the account identifier) and
exp (unix issuance time plus 24 hours), signed HS256 with the byte slice of
os.Getenv JWT_SECRET.  SignedString with a byte-slice key never fails in
golang-jwt v5 (an empty secret yields an empty HMAC key, not an error). -/
def CreateJWTToken (env : Env) (now : Int) (account : Account) :
    Except String TokenString :=
  .ok (.signed [("id", .cNum account.ID), ("exp", .cNum (now + 86400))]
        env.jwtSecret)

/-- ValidateJWT from storage.go: jwt.Parse with a key function returning the
configured secret.  Parse fails on a malformed token, on an HMAC signature
not produced by that secret, and on a present exp claim that is not in the
future (golang-jwt v5 validates registered claims by default; a non-numeric
exp is likewise a parse error). -/
def ValidateJWT (env : Env) (now : Int) (ts : TokenString) :
    Except String (List (String × ClaimVal)) :=
  match ts with
  | .malformed _ => .error "token is malformed"
  | .signed claims sig =>
    if sig == env.jwtSecret then
      match List.lookup "exp" claims with
      | some (.cNum e) => if e ≤ now then .error "token is expired" else .ok claims
      | some _ => .error "exp claim has invalid type"
      | none => .ok claims
    else .error "signature is invalid"

/-- Request body after JSON decoding, tagged by the payload shape sent. -/
structure SignUpRequest where
  FirstName : String
  LastName : String
  Email : String
  Password : String
  ConfirmPassword : String
deriving DecidableEq

structure SignInRequest where
  Email : String
  Password : String
deriving DecidableEq

structure TransferRequest where
  ToAccount : Int
  Amount : Int
deriving DecidableEq

/-- Request body: malformed JSON, or one of the decodable payload shapes. -/
inductive Body where
  | badJson
  | signUpBody (p : SignUpRequest)
  | signInBody (p : SignInRequest)
  | transferBody (p : TransferRequest)
deriving DecidableEq

/-- Inbound HTTP request: method, the x-jwt-token header value, the id path
variable of mux (empty string when absent), and the body. -/
structure Request where
  method : String
  xJwtToken : TokenString
  pathId : String
  body : Body
deriving DecidableEq

/-- Response body as serialized by WriteJSON: the APIError shape, a plain
message string, or the payloads of the success paths. -/
inductive RespBody where
  | errBody (msg : String)
  | msg (s : String)
  | accounts (l : List Account)
  | account (a : Account)
  | transfer (t : TransferRequest)
deriving DecidableEq

/-- Written HTTP response: status code, body, and the optional x-jwt-token
response header set by the sign-in handler. -/
structure Response where
  status : Nat
  body : RespBody
  tokenHeader : Option TokenString := none
deriving DecidableEq

/-- Outcome of running a handler function: a value, or a Go runtime panic
(from a failed type assertion). -/
inductive HResult (α : Type) where
  | ok (a : α)
  | panic
deriving DecidableEq

/-- permissionDenied from storage.go: WriteJSON of status 403 with the
APIError body Permission Denied. -/
def permissionDenied : Response :=
  { status := 403, body := .errBody "Permission Denied" }

/-- WithJWTAuth from storage.go: read the x-jwt-token header, ValidateJWT
(any failure responds permissionDenied without calling the handler), then the
unchecked type assertions claims = token.Claims.(jwt.MapClaims) and
claims id .(float64) — the id lookup panics when the claim is absent or not a
JSON number — then GetAccountById on the numeric id (failure responds
permissionDenied), and finally the wrapped handler on the untouched request. -/
def WithJWTAuth (handler : Store → Request → Store × Response) (env : Env)
    (now : Int) (st : Store) (r : Request) : HResult (Store × Response) :=
  match ValidateJWT env now r.xJwtToken with
  | .error _ => .ok (st, permissionDenied)
  | .ok claims =>
    match List.lookup "id" claims with
    | some (.cNum userId) =>
      match GetAccountById st userId with
      | .error _ => .ok (st, permissionDenied)
      | .ok _ => .ok (handler st r)
    | _ => .panic

/-- hashPassword from the API file: bcrypt.GenerateFromPassword with cost 8.
bcrypt fails when the password exceeds 72 bytes; otherwise the hash is
modelled as a tagged copy of the plaintext, which is faithful for the only
observable property used (verifyPassword succeeds exactly on the original
plaintext). -/
def hashPassword (password : String) : Except String String :=
  if password.toUTF8.size > 72 then
    .error "bcrypt: password length exceeds 72 bytes"
  else
    .ok ("bcrypt$" ++ password)

/-- verifyPassword from the API file: bcrypt.CompareHashAndPassword is nil
exactly when the hash was generated from this password. -/
def verifyPassword (password hash : String) : Bool :=
  hash == "bcrypt$" ++ password

example : hashPassword "p" = .ok "bcrypt$p" := rfl

/-- Decode of the sign-up payload: JSON decode fails only on malformed JSON;
a body of a different shape decodes leniently to zero values, as encoding/json
does. -/
def decodeSignUp : Body → Except String SignUpRequest
  | .badJson => .error "invalid JSON"
  | .signUpBody p => .ok p
  | _ => .ok { FirstName := "", LastName := "", Email := "", Password := "",
               ConfirmPassword := "" }

def decodeSignIn : Body → Except String SignInRequest
  | .badJson => .error "invalid JSON"
  | .signInBody p => .ok p
  | _ => .ok { Email := "", Password := "" }

def decodeTransfer : Body → Except String TransferRequest
  | .badJson => .error "invalid JSON"
  | .transferBody p => .ok p
  | _ => .ok { ToAccount := 0, Amount := 0 }

/-- Digit-string value for the Atoi model. -/
def digitsToNat : List Char → Nat
  | [] => 0
  | c :: rest => digitsToNat rest + c.toNat * 10 ^ rest.length - 48 * 10 ^ rest.length

/-- Atoi on an unsigned digit string: nonempty and all digits. -/
def atoiDigits (ds : List Char) : Except String Nat :=
  if ds ≠ [] ∧ ds.all Char.isDigit then .ok (digitsToNat ds)
  else .error "invalid syntax"

/-- strconv.Atoi: optional sign followed by at least one digit (int64 range
overflow not modelled; path segments never reach it). -/
def atoi (s : String) : Except String Int :=
  match s.toList with
  | '-' :: ds => (atoiDigits ds).map (fun n => -(n : Int))
  | '+' :: ds => (atoiDigits ds).map (fun n => (n : Int))
  | ds => (atoiDigits ds).map (fun n => (n : Int))

/-- getIdFromReq from the API file: Atoi on the id path variable of mux,
replacing the Atoi error with a message asking for a numeric id. -/
def getIdFromReq (r : Request) : Except String Int :=
  match atoi r.pathId with
  | .error _ => .error "provide a numeric value for id"
  | .ok id => .ok id

/-- handleSignUp from the API file: POST only, decode, password must equal
confirm password, bcrypt-hash, NewAccount with a random bank number and the
current time, store through CreateAccount; any failure is returned as an
error, success writes 201 with a message. -/
def handleSignUp (bankNumber : Int) (now : Int) (st : Store) (r : Request) :
    Store × Except String Response :=
  if r.method != "POST" then (st, .error ("METHOD NOT ALLOWED " ++ r.method))
  else
    match decodeSignUp r.body with
    | .error _ =>
      (st, .error "first name, last name, email, password and confirm password is required")
    | .ok p =>
      if p.Password != p.ConfirmPassword then
        (st, .error "password and confirm password should matcn")
      else
        match hashPassword p.Password with
        | .error _ => (st, .error "unable to create account please try again")
        | .ok hashed =>
          let account := NewAccount p.FirstName p.LastName p.Email hashed
            bankNumber now
          let res := CreateAccount st account
          match res.2 with
          | .error _ =>
            (res.1, .error "unable to create account please try again")
          | .ok _ =>
            (res.1, .ok { status := 201, body := .msg "Sign up successful!" })

/-- handleSignIn from the API file: POST only, decode, Storage.SignIn by
email, verify the password against the stored hash — on mismatch WriteJSON of
status 200 with an APIError body — then CreateJWTToken — on failure WriteJSON
of status 200 with an APIError body — and on success status 200 with the
token in the x-jwt-token response header. -/
def handleSignIn (env : Env) (now : Int) (st : Store) (r : Request) :
    Store × Except String Response :=
  if r.method != "POST" then (st, .error ("METHOD NOT ALLOWED " ++ r.method))
  else
    match decodeSignIn r.body with
    | .error _ => (st, .error ("unable to signin " ++ r.method))
    | .ok p =>
      match SignIn st p.Email p.Password with
      | .error e => (st, .error e)
      | .ok account =>
        if !verifyPassword p.Password account.Password then
          (st, .ok { status := 200, body := .errBody "Invalid Credentials!" })
        else
          match CreateJWTToken env now account with
          | .error e => (st, .ok { status := 200, body := .errBody e })
          | .ok token =>
            (st, .ok { status := 200, body := .msg "signed up successfully",
                       tokenHeader := some token })

/-- handleGetAccount from the API file: GetAccounts, replacing any error and
writing 200 with the list. -/
def handleGetAccount (st : Store) (_r : Request) :
    Store × Except String Response :=
  match GetAccounts st with
  | .error _ => (st, .error "unable to get account")
  | .ok accounts => (st, .ok { status := 200, body := .accounts accounts })

/-- handleAccount from the API file: GET dispatches to handleGetAccount,
anything else is a method error. -/
def handleAccount (st : Store) (r : Request) : Store × Except String Response :=
  if r.method == "GET" then handleGetAccount st r
  else (st, .error ("METHOD NOT ALLOWED " ++ r.method))

/-- handleGetAccountById from the API file: numeric id from the path,
GetAccountById, not-found error or 200 with the account. -/
def handleGetAccountById (st : Store) (r : Request) :
    Store × Except String Response :=
  match getIdFromReq r with
  | .error e => (st, .error e)
  | .ok id =>
    match GetAccountById st id with
    | .error _ => (st, .error ("account with id " ++ toString id ++ " not found"))
    | .ok account => (st, .ok { status := 200, body := .account account })

/-- handleDeleteAccount from the API file: numeric id from the path,
DeleteAccount, error message or 200 with a message. -/
def handleDeleteAccount (st : Store) (r : Request) :
    Store × Except String Response :=
  match getIdFromReq r with
  | .error e => (st, .error e)
  | .ok id =>
    let res := DeleteAccount st id
    match res.2 with
    | .error _ => (res.1, .error ("unable to delete account " ++ toString id))
    | .ok _ => (res.1, .ok { status := 200, body := .msg "account deleted" })

/-- handleAccountID from the API file: GET and DELETE dispatch, other
methods error. -/
def handleAccountID (st : Store) (r : Request) : Store × Except String Response :=
  if r.method == "GET" then handleGetAccountById st r
  else if r.method == "DELETE" then handleDeleteAccount st r
  else (st, .error ("METHOD NOT ALLOWED " ++ r.method))

/-- handleTransfer from the API file: POST only, decode the transfer payload
and echo it back with status 200, touching no storage. -/
def handleTransfer (st : Store) (r : Request) : Store × Except String Response :=
  if r.method == "POST" then
    match decodeTransfer r.body with
    | .error e => (st, .error e)
    | .ok t => (st, .ok { status := 200, body := .transfer t })
  else (st, .error ("METHOD NOT ALLOWED " ++ r.method))

/-- makeHTTPHandleFunc from the API file: a returned error becomes a
WriteJSON of status 400 with the APIError body. -/
def makeHTTPHandleFunc (f : Store → Request → Store × Except String Response)
    (st : Store) (r : Request) : Store × Response :=
  match f st r with
  | (st2, .error e) => (st2, { status := 400, body := .errBody e })
  | (st2, .ok resp) => (st2, resp)

/-- Routed entry point POST /api/v1/auth/sign-up, as wired in Run. -/
def epSignUp (bankNumber now : Int) (st : Store) (r : Request) :
    Store × Response :=
  makeHTTPHandleFunc (handleSignUp bankNumber now) st r

/-- Routed entry point POST /api/v1/auth/sign-in, as wired in Run. -/
def epSignIn (env : Env) (now : Int) (st : Store) (r : Request) :
    Store × Response :=
  makeHTTPHandleFunc (handleSignIn env now) st r

/-- Routed entry point /api/v1/account, as wired in Run (no auth). -/
def epAccounts (st : Store) (r : Request) : Store × Response :=
  makeHTTPHandleFunc handleAccount st r

/-- Routed entry point /api/v1/account/transfer, behind WithJWTAuth. -/
def epTransfer (env : Env) (now : Int) (st : Store) (r : Request) :
    HResult (Store × Response) :=
  WithJWTAuth (makeHTTPHandleFunc handleTransfer) env now st r

/-- Routed entry point /api/v1/account/(id), behind WithJWTAuth. -/
def epAccountId (env : Env) (now : Int) (st : Store) (r : Request) :
    HResult (Store × Response) :=
  WithJWTAuth (makeHTTPHandleFunc handleAccountID) env now st r

/-- A response whose body is the APIError shape. -/
def isErrResponse (resp : Response) : Bool :=
  match resp.body with
  | .errBody _ => true
  | _ => false

/-- Predicate of the amended C7: when the response carries an error body its
status lies in the given list. -/
def errImpliesStatusIn (resp : Response) (ss : List Nat) : Prop :=
  isErrResponse resp = true → resp.status ∈ ss

/-- Abbreviation for the row a sign-up stores: NewAccount of the payload
fields with the bcrypt hash, carrying the serial id the insert assigns. -/
def signUpStoredRow (p : SignUpRequest) (bn now id : Int) : Account :=
  { ID := id, FirstName := p.FirstName, LastName := p.LastName,
    Email := p.Email, Password := "bcrypt$" ++ p.Password, BankNumber := bn,
    Balance := 0, CreatedAt := now }

/-- C2: the claim fails on the code, and the code side is the slip: the
INSERT executes and the row is stored with the assigned id, but rowToAccount
scans eight destinations against the seven columns of the RETURNING clause
(password is not returned), so CreateAccount returns a Scan error on every
successful insert instead of the stored row. -/
theorem CreateAccount_inserts_but_errors :
    (CreateAccount { nextId := 1, table := [] }
        (NewAccount "fn" "ln" "mail" "pw" 7 0)).1.table =
      [{ NewAccount "fn" "ln" "mail" "pw" 7 0 with ID := 1 }]
    ∧ (CreateAccount { nextId := 1, table := [] }
        (NewAccount "fn" "ln" "mail" "pw" 7 0)).2 =
      .error "sql: Scan destination arguments do not match row columns" :=
  ⟨rfl, rfl⟩

/-- C4: the claim fails on the code, and the code side is the slip: the
DELETE statement text is a single line starting with two dashes, so the whole
statement is a SQL comment; with an account of id 1 stored, DeleteAccount 1
leaves the store unchanged (the row is still present) and returns an error
instead of removing the row and succeeding. -/
theorem DeleteAccount_removes_nothing :
    DeleteAccount
        { nextId := 2, table := [{ NewAccount "fn" "ln" "mail" "pw" 7 0 with ID := 1 }] } 1 =
      ({ nextId := 2, table := [{ NewAccount "fn" "ln" "mail" "pw" 7 0 with ID := 1 }] },
        .error "sql: expected 0 arguments, got 1")
    ∧ { NewAccount "fn" "ln" "mail" "pw" 7 0 with ID := 1 } ∈
        (DeleteAccount
          { nextId := 2, table := [{ NewAccount "fn" "ln" "mail" "pw" 7 0 with ID := 1 }] } 1).1.table :=
  ⟨rfl, by simp [DeleteAccount, isEffectivelyEmpty, deleteAccountQuery, stripLineComments]⟩

/-- C5: the claim fails on the code, and the code side is the slip: the loop
of rowsToAccounts scans only six destinations (Email and Password are
missing) against the eight columns of SELECT *, so GetAccounts returns a Scan
error on every non-empty table; only the empty table yields the empty list
without error. -/
theorem GetAccounts_errors_on_nonempty_table :
    GetAccounts { nextId := 2, table := [NewAccount "fn" "ln" "mail" "pw" 7 0] } =
      .error "sql: expected 8 destination arguments in Scan, not 6"
    ∧ GetAccounts { nextId := 1, table := [] } = .ok [] :=
  ⟨rfl, rfl⟩

/-- C6 counterexample: with JWT_SECRET absent (os.Getenv yields the empty
string) token issuance still succeeds, signing with the empty HMAC key — it
does not return an error. -/
theorem CreateJWTToken_succeeds_with_empty_secret :
    CreateJWTToken { jwtSecret := "" } 0 (NewAccount "fn" "ln" "mail" "pw" 7 0) =
      .ok (.signed [("id", .cNum 0), ("exp", .cNum 86400)] "") :=
  rfl

/-- C6 amended: token issuance embeds the account identifier and an absolute
expiration 24 hours from issuance and signs with the configured symmetric
secret, and it always succeeds — when the secret is absent or empty it signs
with the empty key rather than returning an error. -/
theorem CreateJWTToken_spec (env : Env) (now : Int) (a : Account) :
    CreateJWTToken env now a =
      .ok (.signed [("id", .cNum a.ID), ("exp", .cNum (now + 86400))]
            env.jwtSecret) :=
  rfl

/-- C1: the auth middleware reads the x-jwt-token header; when validation
fails it responds permission-denied with the store untouched and the result
does not depend on the wrapped handler; when validation succeeds with a
numeric id claim but GetAccountById fails it likewise responds
permission-denied; when both succeed the result is exactly the wrapped
handler applied to the original store and request. -/
theorem WithJWTAuth_gating (handler : Store → Request → Store × Response)
    (env : Env) (now : Int) (st : Store) (r : Request) :
    ((∃ e, ValidateJWT env now r.xJwtToken = .error e) →
      WithJWTAuth handler env now st r = .ok (st, permissionDenied))
    ∧ (∀ claims userId, ValidateJWT env now r.xJwtToken = .ok claims →
        List.lookup "id" claims = some (.cNum userId) →
        (((∃ e, GetAccountById st userId = .error e) →
            WithJWTAuth handler env now st r = .ok (st, permissionDenied))
          ∧ ((∃ a, GetAccountById st userId = .ok a) →
            WithJWTAuth handler env now st r = .ok (handler st r)))) := by
  refine ⟨fun ⟨e, he⟩ => ?_, fun claims userId hv hid => ⟨fun ⟨e, he⟩ => ?_, fun ⟨a, ha⟩ => ?_⟩⟩
  · simp [WithJWTAuth, he]
  · simp [WithJWTAuth, hv, hid, he]
  · simp [WithJWTAuth, hv, hid, ha]

/-- Witness for C1: a request with a malformed token is rejected with
permission-denied for a concrete handler and store. -/
theorem WithJWTAuth_gating_witness :
    WithJWTAuth (fun st _ => (st, { status := 200, body := .msg "x" }))
        { jwtSecret := "s" } 0 { nextId := 1, table := [] }
        { method := "GET", xJwtToken := .malformed "", pathId := "",
          body := .badJson } =
      .ok ({ nextId := 1, table := [] }, permissionDenied) :=
  (WithJWTAuth_gating _ _ _ _ _).1 ⟨"token is malformed", rfl⟩

/-- C10: a token whose signature validates but whose payload lacks an id
claim makes the middleware panic on the unchecked type assertion (likewise
when the id claim is not a JSON number), instead of responding
permission-denied; and under the precondition that the validated claims carry
a numeric id, the middleware never panics. -/
theorem WithJWTAuth_panics_without_numeric_id :
    (WithJWTAuth (fun st _ => (st, { status := 200, body := .msg "x" }))
        { jwtSecret := "s" } 0 { nextId := 1, table := [] }
        { method := "GET", xJwtToken := .signed [("exp", .cNum 100)] "s",
          pathId := "", body := .badJson } = .panic)
    ∧ (WithJWTAuth (fun st _ => (st, { status := 200, body := .msg "x" }))
        { jwtSecret := "s" } 0 { nextId := 1, table := [] }
        { method := "GET", xJwtToken := .signed [("id", .cStr "5")] "s",
          pathId := "", body := .badJson } = .panic)
    ∧ (∀ (handler : Store → Request → Store × Response) (env : Env)
        (now : Int) (st : Store) (r : Request) claims userId,
        ValidateJWT env now r.xJwtToken = .ok claims →
        List.lookup "id" claims = some (.cNum userId) →
        WithJWTAuth handler env now st r ≠ .panic) := by
  refine ⟨rfl, rfl, fun handler env now st r claims userId hv hid => ?_⟩
  simp only [WithJWTAuth, hv, hid]
  cases GetAccountById st userId <;> simp

/-- Witness for C10: the precondition part applied at a concrete request
whose validated token carries the numeric id claim 1. -/
theorem WithJWTAuth_panics_without_numeric_id_witness :
    WithJWTAuth (fun st _ => (st, { status := 200, body := .msg "x" }))
        { jwtSecret := "s" } 0 { nextId := 1, table := [] }
        { method := "GET", xJwtToken := .signed [("id", .cNum 1)] "s",
          pathId := "", body := .badJson } ≠ .panic :=
  WithJWTAuth_panics_without_numeric_id.2.2 _ _ _ _ _ [("id", .cNum 1)] 1 rfl rfl

/-- C8: a sign-up payload whose password and confirm password differ makes
the handler return the mismatch error with the store unchanged — no account
is persisted. -/
theorem handleSignUp_password_mismatch (bankNumber now : Int) (st : Store)
    (r : Request) (p : SignUpRequest) (hm : r.method = "POST")
    (hb : r.body = .signUpBody p)
    (hne : p.Password ≠ p.ConfirmPassword) :
    handleSignUp bankNumber now st r =
      (st, .error "password and confirm password should matcn") := by
  simp [handleSignUp, hm, hb, decodeSignUp, hne]

/-- Witness for C8: concrete mismatched payload on the empty store. -/
theorem handleSignUp_password_mismatch_witness :
    handleSignUp 7 0 { nextId := 1, table := [] }
        { method := "POST", xJwtToken := .malformed "", pathId := "",
          body := .signUpBody { FirstName := "fn", LastName := "ln",
                                Email := "mail", Password := "a",
                                ConfirmPassword := "b" } } =
      ({ nextId := 1, table := [] },
        .error "password and confirm password should matcn") :=
  handleSignUp_password_mismatch 7 0 _ _ _ rfl rfl (by decide)

/-- C9: an authenticated POST to the transfer endpoint with a decodable body
yields status 200 echoing the decoded payload, with the store returned
exactly as it was — no stored field changes. -/
theorem epTransfer_echoes_without_mutation (env : Env) (now : Int)
    (st : Store) (r : Request) (t : TransferRequest)
    (claims : List (String × ClaimVal)) (userId : Int) (acct : Account)
    (hm : r.method = "POST") (hb : r.body = .transferBody t)
    (hv : ValidateJWT env now r.xJwtToken = .ok claims)
    (hid : List.lookup "id" claims = some (.cNum userId))
    (hacct : GetAccountById st userId = .ok acct) :
    epTransfer env now st r =
      .ok (st, { status := 200, body := .transfer t }) := by
  simp [epTransfer, WithJWTAuth, hv, hid, hacct, makeHTTPHandleFunc,
    handleTransfer, hm, hb, decodeTransfer]

/-- Witness for C9: concrete authenticated transfer request against a store
holding the account of the token subject. -/
theorem epTransfer_echoes_without_mutation_witness :
    epTransfer { jwtSecret := "s" } 0
        { nextId := 2, table := [{ NewAccount "fn" "ln" "mail" "pw" 7 0 with ID := 1 }] }
        { method := "POST", xJwtToken := .signed [("id", .cNum 1)] "s",
          pathId := "", body := .transferBody { ToAccount := 2, Amount := 5 } } =
      .ok ({ nextId := 2, table := [{ NewAccount "fn" "ln" "mail" "pw" 7 0 with ID := 1 }] },
        { status := 200, body := .transfer { ToAccount := 2, Amount := 5 } }) :=
  epTransfer_echoes_without_mutation _ _ _ _ _ [("id", .cNum 1)] 1
    { NewAccount "fn" "ln" "mail" "pw" 7 0 with ID := 1 } rfl rfl rfl rfl rfl

/-- C7 counterexample: a sign-in with a wrong password against a stored
account produces an error response (the APIError body Invalid Credentials!)
with HTTP status 200 — an error response outside 400 and 403. -/
theorem epSignIn_error_response_with_status_200 :
    (epSignIn { jwtSecret := "s" } 0
        { nextId := 2,
          table := [{ NewAccount "fn" "ln" "mail" "bcrypt$pw" 7 0 with ID := 1 }] }
        { method := "POST", xJwtToken := .malformed "", pathId := "",
          body := .signInBody { Email := "mail", Password := "wrong" } }).2 =
      { status := 200, body := .errBody "Invalid Credentials!" }
    ∧ isErrResponse
        (epSignIn { jwtSecret := "s" } 0
          { nextId := 2,
            table := [{ NewAccount "fn" "ln" "mail" "bcrypt$pw" 7 0 with ID := 1 }] }
          { method := "POST", xJwtToken := .malformed "", pathId := "",
            body := .signInBody { Email := "mail", Password := "wrong" } }).2 =
      true :=
  ⟨rfl, rfl⟩

/-- C7 amended: every error response of the routed entry points carries
status 400, except the permission-denied responses of the auth middleware
(status 403) and the invalid-credentials and token-failure paths of the
sign-in handler, which write the error body with status 200. -/
theorem error_responses_status (bankNumber now : Int) (env : Env)
    (st : Store) (r : Request) :
    errImpliesStatusIn (epSignUp bankNumber now st r).2 [400]
    ∧ errImpliesStatusIn (epSignIn env now st r).2 [400, 200]
    ∧ errImpliesStatusIn (epAccounts st r).2 [400]
    ∧ (∀ st2 resp, epTransfer env now st r = .ok (st2, resp) →
        errImpliesStatusIn resp [403, 400])
    ∧ (∀ st2 resp, epAccountId env now st r = .ok (st2, resp) →
        errImpliesStatusIn resp [403, 400]) := by
  refine ⟨?_, ?_, ?_, ?_, ?_⟩
  · simp only [errImpliesStatusIn, epSignUp, makeHTTPHandleFunc, handleSignUp]
    repeat' split
    all_goals try (rename_i st2 resp heq; repeat' split at heq)
    all_goals try (simp only [Prod.mk.injEq, Except.ok.injEq,
      Except.error.injEq] at heq)
    all_goals try (obtain ⟨h1, h2⟩ := heq; subst h2)
    all_goals simp_all [isErrResponse]
  · simp only [errImpliesStatusIn, epSignIn, makeHTTPHandleFunc, handleSignIn]
    repeat' split
    all_goals try (rename_i st2 resp heq; repeat' split at heq)
    all_goals try (simp only [Prod.mk.injEq, Except.ok.injEq,
      Except.error.injEq] at heq)
    all_goals try (obtain ⟨h1, h2⟩ := heq; subst h2)
    all_goals simp_all [isErrResponse]
  · simp only [errImpliesStatusIn, epAccounts, makeHTTPHandleFunc,
      handleAccount, handleGetAccount]
    repeat' split
    all_goals try (rename_i st2 resp heq; repeat' split at heq)
    all_goals try (simp only [Prod.mk.injEq, Except.ok.injEq,
      Except.error.injEq] at heq)
    all_goals try (obtain ⟨h1, h2⟩ := heq; subst h2)
    all_goals simp_all [isErrResponse]
  · intro st2 resp heq
    simp only [epTransfer, WithJWTAuth, makeHTTPHandleFunc,
      handleTransfer] at heq
    repeat' split at heq
    all_goals try (rename_i a b heqb; repeat' split at heqb)
    all_goals try injections
    all_goals try subst_eqs
    all_goals simp_all [errImpliesStatusIn, isErrResponse, permissionDenied]
  · intro st2 resp heq
    simp only [epAccountId, WithJWTAuth, makeHTTPHandleFunc, handleAccountID,
      handleGetAccountById, handleDeleteAccount] at heq
    repeat' split at heq
    all_goals try (rename_i a b heqb; repeat' split at heqb)
    all_goals try injections
    all_goals try subst_eqs
    all_goals simp_all [errImpliesStatusIn, isErrResponse, permissionDenied]

/-- C3: after a sign-up with matching password fields on a store whose rows
clash with neither the email nor the generated bank number, the account is
persisted with identifier st.nextId, and a sign-in with the same email and
the original plaintext password succeeds with status 200 carrying a token
that validates under the same secret at any time before its expiration and
whose id claim equals the created account identifier.  (The sign-up response
itself is an error because of the Scan bug of C2, but the row is stored.) -/
theorem signUp_then_signIn_roundtrip (st : Store) (p : SignUpRequest)
    (bn now now2 t : Int) (env : Env)
    (hmatch : p.Password = p.ConfirmPassword)
    (hlen : p.Password.toUTF8.size ≤ 72)
    (hfreshEmail : ∀ b ∈ st.table, b.Email ≠ p.Email)
    (hfreshBank : ∀ b ∈ st.table, b.BankNumber ≠ bn)
    (ht : t < now2 + 86400) :
    (handleSignUp bn now st
        { method := "POST", xJwtToken := .malformed "", pathId := "",
          body := .signUpBody p }).1.table =
      st.table ++ [signUpStoredRow p bn now st.nextId]
    ∧ handleSignIn env now2
        (handleSignUp bn now st
          { method := "POST", xJwtToken := .malformed "", pathId := "",
            body := .signUpBody p }).1
        { method := "POST", xJwtToken := .malformed "", pathId := "",
          body := .signInBody { Email := p.Email, Password := p.Password } } =
      ((handleSignUp bn now st
          { method := "POST", xJwtToken := .malformed "", pathId := "",
            body := .signUpBody p }).1,
        .ok { status := 200, body := .msg "signed up successfully",
              tokenHeader := some (.signed
                [("id", .cNum st.nextId), ("exp", .cNum (now2 + 86400))]
                env.jwtSecret) })
    ∧ ValidateJWT env t
        (.signed [("id", .cNum st.nextId), ("exp", .cNum (now2 + 86400))]
          env.jwtSecret) =
      .ok [("id", .cNum st.nextId), ("exp", .cNum (now2 + 86400))]
    ∧ List.lookup "id"
        [("id", .cNum st.nextId), ("exp", .cNum (now2 + 86400))] =
      some (ClaimVal.cNum st.nextId) := by
  have hhash : hashPassword p.Password = .ok ("bcrypt$" ++ p.Password) := by
    unfold hashPassword
    rw [if_neg (by omega)]
  have hany : (st.table.any
      fun b => b.Email == p.Email || b.BankNumber == bn) = false := by
    rw [List.any_eq_false]
    intro b hb
    simp [hfreshEmail b hb, hfreshBank b hb]
  have hca : CreateAccount st
      (NewAccount p.FirstName p.LastName p.Email ("bcrypt$" ++ p.Password)
        bn now) =
      ({ nextId := st.nextId + 1,
         table := st.table ++ [signUpStoredRow p bn now st.nextId] },
        .error "sql: Scan destination arguments do not match row columns") := by
    unfold CreateAccount
    rw [if_neg (by simp only [NewAccount]; simp [hany])]
    rfl
  have hne : (p.Password != p.ConfirmPassword) = false := by
    simp [hmatch]
  have hsu : handleSignUp bn now st
      { method := "POST", xJwtToken := .malformed "", pathId := "",
        body := .signUpBody p } =
      ({ nextId := st.nextId + 1,
         table := st.table ++ [signUpStoredRow p bn now st.nextId] },
        .error "unable to create account please try again") := by
    simp only [handleSignUp, decodeSignUp, hne, hhash, hca, Bool.false_eq_true,
      if_false, bne_self_eq_false]
  have hfilter : ((st.table ++
      [signUpStoredRow p bn now st.nextId]).filter
        (fun a => a.Email == p.Email)) =
      [signUpStoredRow p bn now st.nextId] := by
    rw [List.filter_append,
      List.filter_eq_nil_iff.mpr (fun b hb => by simp [hfreshEmail b hb])]
    simp [signUpStoredRow]
  have hsignin : SignIn
      { nextId := st.nextId + 1,
        table := st.table ++ [signUpStoredRow p bn now st.nextId] }
      p.Email p.Password = .ok (signUpStoredRow p bn now st.nextId) := by
    unfold SignIn
    dsimp only
    rw [hfilter]
    rfl
  refine ⟨by rw [hsu], ?_, ?_, rfl⟩
  · rw [hsu]
    simp only [handleSignIn, decodeSignIn, bne_self_eq_false,
      Bool.false_eq_true, if_false, hsignin]
    simp [verifyPassword, CreateJWTToken, signUpStoredRow]
  · unfold ValidateJWT
    dsimp only
    rw [if_pos (by simp)]
    rw [show List.lookup "exp"
        [("id", ClaimVal.cNum st.nextId),
         ("exp", ClaimVal.cNum (now2 + 86400))] =
      some (ClaimVal.cNum (now2 + 86400)) from rfl]
    dsimp only
    rw [if_neg (by omega)]

/-- Witness for C3: concrete sign-up and sign-in on the empty store. -/
theorem signUp_then_signIn_roundtrip_witness :
    (handleSignUp 7 0 { nextId := 1, table := [] }
        { method := "POST", xJwtToken := .malformed "", pathId := "",
          body := .signUpBody { FirstName := "fn", LastName := "ln",
                                Email := "mail", Password := "pw",
                                ConfirmPassword := "pw" } }).1.table =
      [] ++ [signUpStoredRow { FirstName := "fn", LastName := "ln",
                               Email := "mail", Password := "pw",
                               ConfirmPassword := "pw" } 7 0 1]
    ∧ handleSignIn { jwtSecret := "s" } 0
        (handleSignUp 7 0 { nextId := 1, table := [] }
          { method := "POST", xJwtToken := .malformed "", pathId := "",
            body := .signUpBody { FirstName := "fn", LastName := "ln",
                                  Email := "mail", Password := "pw",
                                  ConfirmPassword := "pw" } }).1
        { method := "POST", xJwtToken := .malformed "", pathId := "",
          body := .signInBody { Email := "mail", Password := "pw" } } =
      ((handleSignUp 7 0 { nextId := 1, table := [] }
          { method := "POST", xJwtToken := .malformed "", pathId := "",
            body := .signUpBody { FirstName := "fn", LastName := "ln",
                                  Email := "mail", Password := "pw",
                                  ConfirmPassword := "pw" } }).1,
        .ok { status := 200, body := .msg "signed up successfully",
              tokenHeader := some (.signed
                [("id", .cNum 1), ("exp", .cNum 86400)] "s") })
    ∧ ValidateJWT { jwtSecret := "s" } 0
        (.signed [("id", .cNum 1), ("exp", .cNum 86400)] "s") =
      .ok [("id", .cNum 1), ("exp", .cNum 86400)]
    ∧ List.lookup "id" [("id", .cNum 1), ("exp", .cNum 86400)] =
      some (ClaimVal.cNum 1) :=
  signUp_then_signIn_roundtrip { nextId := 1, table := [] }
    { FirstName := "fn", LastName := "ln", Email := "mail", Password := "pw",
      ConfirmPassword := "pw" } 7 0 0 0 { jwtSecret := "s" } rfl
    (by decide) (by simp) (by simp) (by decide)

/-- Witness for C7 amended: the sign-up entry point on a mismatched-password
payload yields status 400 for its error response. -/
theorem error_responses_status_witness :
    (epSignUp 7 0 { nextId := 1, table := [] }
        { method := "POST", xJwtToken := .malformed "", pathId := "",
          body := .signUpBody { FirstName := "fn", LastName := "ln",
                                Email := "mail", Password := "a",
                                ConfirmPassword := "b" } }).2.status ∈
      [400] :=
  (error_responses_status 7 0 { jwtSecret := "s" } _ _).1 rfl


